import Mathlib

/-!
Verification of the asynchronous image-processing pipeline of the 1to1
(FrameFix) repository: batch status aggregation (`getBatchProcessingStatus`),
the client-side status poller (`useProcessingStatus`), the Gemini color
analysis client (`analyzeImageWithGemini`), the Topaz upscale client
(`upscaleWithTopaz` / `pollTopazJob`), the Sharp color-adjustment mapping
(`applyColorAdjustments`) and the Inngest pipeline run (`processImageFlow`).

Each definition is a shallow embedding of the corresponding TypeScript
function: external effects (database reads/writes, HTTP calls) are passed
in as explicit outcome values, JavaScript numbers are modelled as rationals
(with an explicit NaN constructor where the source can produce NaN), and
thrown exceptions are modelled with `Except`.
-/

/-- The image status enumeration, from the Supabase schema
`image_status: 'pending' | 'processing' | 'completed' | 'failed'`
(src/lib/supabase/types.ts). -/
inductive Status
  | pending
  | processing
  | completed
  | failed
deriving DecidableEq, Repr

/-- Result shape of `getBatchProcessingStatus` (src/unnamed/part_004):
`{ total, pending, processing, completed, failed }`. Counts are natural
numbers, which makes non-negativity structural. -/
structure BatchCounts where
  total : Nat
  pending : Nat
  processing : Nat
  completed : Nat
  failed : Nat
deriving DecidableEq, Repr

/-- The all-zero counts record returned on any query error or caught
exception in `getBatchProcessingStatus`. -/
def zeroCounts : BatchCounts :=
  { total := 0, pending := 0, processing := 0, completed := 0, failed := 0 }

/-- Outcome of the Supabase query
`from("images").select("status").eq("batch_id", batchId)` as observed by
`getBatchProcessingStatus`: an error result (or null data), a thrown
exception reaching the surrounding try/catch, or a list of rows each
carrying a status. -/
inductive StatusQueryOutcome
  | queryError
  | thrown
  | rows (l : List Status)

/-- Shallow embedding of `getBatchProcessingStatus`
(src/unnamed/part_004, lines 185-214): on `error || !images` or on a
caught exception it returns all zeros, otherwise it returns the list
length and the four status filter counts. -/
def getBatchProcessingStatus : StatusQueryOutcome → BatchCounts
  | .queryError => zeroCounts
  | .thrown => zeroCounts
  | .rows l =>
    { total := l.length
      pending := l.countP (· == Status.pending)
      processing := l.countP (· == Status.processing)
      completed := l.countP (· == Status.completed)
      failed := l.countP (· == Status.failed) }

/-- Derived fields computed by `fetchStatus` in `useProcessingStatus`
(src/hooks/use-processing-status.ts, lines 65-95). -/
structure ProcessingStatusDerived where
  isComplete : Bool
  progress : Int
deriving DecidableEq, Repr

/-- Shallow embedding of the derivation in `fetchStatus`:
`progress = total > 0 ? Math.round(completed / total * 100) : 0` and
`isComplete = total > 0 && pending === 0 && processing === 0`. -/
def deriveStatus (r : BatchCounts) : ProcessingStatusDerived :=
  { isComplete := decide (0 < r.total) && decide (r.pending = 0) && decide (r.processing = 0)
    progress := if 0 < r.total then round (((r.completed : ℚ) / (r.total : ℚ)) * 100) else 0 }

/-- Default `pollingInterval` of `useProcessingStatus`
(src/hooks/use-processing-status.ts, line 47): 3000 ms. -/
def defaultPollingInterval : Nat := 3000

/-- Default `maxPollingTime` of `useProcessingStatus`
(src/hooks/use-processing-status.ts, line 48): 600000 ms, ten minutes. -/
def defaultMaxPollingTime : Nat := 600000

/-- Which callback the poll loop in `useProcessingStatus` ends with:
`onTimeout`, `onComplete`, or still polling (no callback yet). -/
inductive PollStop
  | timedOut
  | completedCb
  | running
deriving DecidableEq, Repr

/-- Shallow embedding of the recursive `poll` closure in
`useProcessingStatus` (src/hooks/use-processing-status.ts, lines 113-140).
Each tick is modelled as a pair (now, fetchIsComplete): the value of
`Date.now()` when the tick fires, and what the `fetchStatus` call at that
tick would report for `isComplete`. A tick first checks
`Date.now() - pollingStartTime > maxPollingTime` (it stops and invokes
`onTimeout`), then fetches (on `isComplete` it stops and invokes
`onComplete`), otherwise it schedules the next tick. -/
def pollLoop (start maxT : Nat) : List (Nat × Bool) → PollStop
  | [] => .running
  | (now, c) :: rest =>
    if start + maxT < now then .timedOut
    else if c then .completedCb
    else pollLoop start maxT rest

/-- A JavaScript number as produced by the analysis path: either NaN or a
real value (modelled as a rational). `Math.min(Math.max(undefined, lo), hi)`
evaluates to NaN in JavaScript, which is why NaN is reachable. -/
inductive JSNum
  | nan
  | num (q : ℚ)
deriving DecidableEq, Repr

/-- Whether a JavaScript number lies in the closed interval [lo, hi]; NaN
compares false with everything, so it is never in range. -/
def JSNum.inRange (lo hi : ℚ) : JSNum → Bool
  | .nan => false
  | .num q => decide (lo ≤ q) && decide (q ≤ hi)

/-- A parsed JSON object as `analyzeImageWithGemini` reads it
(src/lib/inngest/gemini-analysis.ts, line 64): each numeric field may be
absent (reads as `undefined`), and the free-text field may be absent or
empty. -/
structure GeminiJson where
  brightness : Option ℚ
  contrast : Option ℚ
  saturation : Option ℚ
  vibrance : Option ℚ
  warmth : Option ℚ
  highlights : Option ℚ
  shadows : Option ℚ
  recommendation : Option String
deriving DecidableEq, Repr

/-- What the analysis provider interaction produced, as observed inside
`analyzeImageWithGemini`: a thrown error from `fetch` or
`model.generateContent` (outside the try around `JSON.parse`), a response
text on which `JSON.parse` throws, or a successfully parsed JSON object. -/
inductive AnalysisResponse
  | providerError
  | unparsable (raw : String)
  | json (j : GeminiJson)
deriving DecidableEq, Repr

/-- Result record of `analyzeImageWithGemini` (`GeminiAnalysisResult` in
src/lib/inngest/client.ts): seven numeric fields plus a free-text
recommendation. -/
structure GeminiAnalysisResult where
  brightness : JSNum
  contrast : JSNum
  saturation : JSNum
  vibrance : JSNum
  warmth : JSNum
  highlights : JSNum
  shadows : JSNum
  recommendation : String
deriving DecidableEq, Repr

/-- The `clamp` helper of src/lib/inngest/gemini-analysis.ts (line 93),
`Math.min(Math.max(value, min), max)`, applied to a possibly-absent field:
an absent field is `undefined`, and both Math operations turn it into NaN. -/
def clampField (v : Option ℚ) : JSNum :=
  match v with
  | none => .nan
  | some q => .num (min (max q (-100)) 100)

/-- The neutral default record returned by the catch branch of
`analyzeImageWithGemini` (src/lib/inngest/gemini-analysis.ts, lines 80-89). -/
def defaultAnalysis : GeminiAnalysisResult :=
  { brightness := .num 5
    contrast := .num 10
    saturation := .num 5
    vibrance := .num 10
    warmth := .num 0
    highlights := .num (-5)
    shadows := .num 5
    recommendation := "Valores por defecto aplicados debido a error de analisis" }

/-- JavaScript `s || default`: `undefined` and the empty string are both
falsy and replaced by the default. -/
def jsStringOr (s : Option String) (d : String) : String :=
  match s with
  | none => d
  | some s => if s = "" then d else s

/-- Shallow embedding of `analyzeImageWithGemini`
(src/lib/inngest/gemini-analysis.ts, lines 10-91). Only the block around
`JSON.parse` is inside a try/catch, so a thrown provider error propagates
(`Except.error`); an unparsable response yields the neutral default; a
parsed JSON yields the clamp of each field (NaN when absent). -/
def analyzeImageWithGemini : AnalysisResponse → Except String GeminiAnalysisResult
  | .providerError => .error "provider error propagates to the caller"
  | .unparsable _ => .ok defaultAnalysis
  | .json j => .ok
      { brightness := clampField j.brightness
        contrast := clampField j.contrast
        saturation := clampField j.saturation
        vibrance := clampField j.vibrance
        warmth := clampField j.warmth
        highlights := clampField j.highlights
        shadows := clampField j.shadows
        recommendation := jsStringOr j.recommendation "Ajustes optimizados para impresion" }

/-- A JSON response that is valid JSON but omits every field, such as the
response text consisting of two braces. -/
def emptyGeminiJson : GeminiJson :=
  { brightness := none, contrast := none, saturation := none, vibrance := none
    warmth := none, highlights := none, shadows := none, recommendation := none }

/-- Constant `POLLING_INTERVAL` of src/lib/inngest/topaz-upscale.ts (line 4). -/
def POLLING_INTERVAL : Nat := 3000

/-- Constant `MAX_POLLING_ATTEMPTS` of src/lib/inngest/topaz-upscale.ts (line 5). -/
def MAX_POLLING_ATTEMPTS : Nat := 120

/-- One status-poll response as `pollTopazJob` interprets it: an HTTP
error response (`!statusResponse.ok`, loop continues), a status in
{completed, success, done} carrying an optional result URL, a status in
{failed, error}, or any other status string. -/
inductive TopazPollResponse
  | httpError
  | completedWith (url : Option String)
  | failedStatus
  | otherStatus
deriving DecidableEq, Repr

/-- Outcome of `pollTopazJob`, tagged with the attempt number at which the
loop ended where applicable. -/
inductive TopazPollOutcome
  | success (url : String) (attempts : Nat)
  | jobFailed (attempts : Nat)
  | noResultUrl (attempts : Nat)
  | timedOut
deriving DecidableEq, Repr

/-- A poll response that lets the loop continue: an HTTP error or a
non-terminal status string. -/
def nonTerminal (r : TopazPollResponse) : Prop :=
  r = .httpError ∨ r = .otherStatus

instance (r : TopazPollResponse) : Decidable (nonTerminal r) := by
  unfold nonTerminal
  infer_instance

/-- Shallow embedding of the `while (attempts < MAX_POLLING_ATTEMPTS)`
loop of `pollTopazJob` (src/lib/inngest/topaz-upscale.ts, lines 148-212).
`resp i` is the provider response to the i-th poll (attempts are counted
from 1, as in the source, where `attempts++` runs before the fetch is
interpreted). The throws for a failed status and for a completed status
without URL happen inside the try block whose catch swallows the error and
continues polling unless `attempts >= MAX_POLLING_ATTEMPTS / 2`, i.e.
unless at least 60 attempts have been made. Fuel counts the remaining
iterations; exhausting it is the timeout throw after the loop. -/
def pollTopazAux (resp : Nat → TopazPollResponse) : Nat → Nat → TopazPollOutcome
  | 0, _ => .timedOut
  | fuel + 1, attempts =>
    let a := attempts + 1
    match resp a with
    | .httpError => pollTopazAux resp fuel a
    | .completedWith (some url) => .success url a
    | .completedWith none =>
      if MAX_POLLING_ATTEMPTS / 2 ≤ a then .noResultUrl a else pollTopazAux resp fuel a
    | .failedStatus =>
      if MAX_POLLING_ATTEMPTS / 2 ≤ a then .jobFailed a else pollTopazAux resp fuel a
    | .otherStatus => pollTopazAux resp fuel a

/-- The function `pollTopazJob` run from the start: 120 iterations of fuel, zero
attempts made so far. -/
def pollTopazJob (resp : Nat → TopazPollResponse) : TopazPollOutcome :=
  pollTopazAux resp MAX_POLLING_ATTEMPTS 0

/-- Adjustment record consumed by `applyColorAdjustments`
(src/lib/inngest/frame-processing.ts): the seven bounded numeric fields of
a color analysis, modelled as rationals. -/
structure AdjustmentsQ where
  brightness : ℚ
  contrast : ℚ
  saturation : ℚ
  vibrance : ℚ
  warmth : ℚ
  highlights : ℚ
  shadows : ℚ
deriving DecidableEq, Repr

/-- The internal Sharp parameters produced by `applyColorAdjustments`:
`modulate` brightness and saturation, the rounded hue shift, the optional
`linear` contrast multiplier (absent when contrast is 0), and the optional
`gamma` value (absent when shadows and highlights are both 0, or when the
clamped gamma equals 1). -/
structure SharpParams where
  modBrightness : ℚ
  modSaturation : ℚ
  hue : ℤ
  linearMultiplier : Option ℚ
  gammaValue : Option ℚ
deriving DecidableEq, Repr

/-- Shallow embedding of `applyColorAdjustments`
(src/lib/inngest/frame-processing.ts, lines 165-219):
brightness = 1 + b/200 clamped by `Math.max(0.5, Math.min(2, _))`;
saturation = 1 + s/100 clamped by `Math.max(0, Math.min(2, _))`;
hue = `Math.round(-(warmth * 0.15))`;
contrast multiplier = 1 + c/100 clamped by `Math.max(0.5, Math.min(2, _))`
applied via `linear` only when c is not 0;
gamma = `Math.max(1.0, Math.min(3.0, 1.0 - shadows/200 + 0.5))`, applied
only when shadows or highlights is not 0 and the value is not 1. -/
def applyColorAdjustments (a : AdjustmentsQ) : SharpParams :=
  let brightness := 1 + a.brightness / 200
  let saturation := 1 + a.saturation / 100
  let hueShift := -(a.warmth * (15 / 100))
  { modBrightness := max (1 / 2) (min 2 brightness)
    modSaturation := max 0 (min 2 saturation)
    hue := round hueShift
    linearMultiplier :=
      if a.contrast ≠ 0 then some (max (1 / 2) (min 2 (1 + a.contrast / 100))) else none
    gammaValue :=
      if a.shadows ≠ 0 ∨ a.highlights ≠ 0 then
        (let shadowEffect := -(a.shadows / 200)
         let gammaV := max 1 (min 3 (1 + shadowEffect + 1 / 2))
         if gammaV ≠ 1 then some gammaV else none)
      else none }

/-- Outcome of the call `upscaleWithTopaz(originalUrl, 4)` as observed by
the upscale step (src/lib/inngest/functions.ts, line 295, second revision
of the file): the call threw (HTTP error, unrecognized response format,
job failure or polling timeout all end in a throw in
src/lib/inngest/topaz-upscale.ts), or it returned a result without an
`upscaledImageBase64` payload (for example the immediate-URL response
shape), or it returned an image payload. -/
inductive TopazCallResult
  | threw
  | noImagePayload
  | imagePayload
deriving DecidableEq, Repr

/-- Environment of one pipeline run: the outcome each external interaction
would have. Booleans record whether the corresponding Supabase operation
succeeds; the analysis and upscale fields carry the provider outcomes. -/
structure RunEnv where
  dispatchWriteOk : Bool
  markWriteOk : Bool
  analysisResponse : AnalysisResponse
  topazConfigured : Bool
  topazResult : TopazCallResult
  upsUploadOk : Bool
  upsSignOk : Bool
  frameOk : Bool
  finalUploadOk : Bool
  finalSignOk : Bool
  finalUpdateOk : Bool
deriving DecidableEq, Repr

/-- Result of one pipeline run: the image's final status, the list of
(previous status, written status) pairs for every successful status write
(in order), and whether the frame was composed from the upscaled image
rather than the original. -/
structure RunResult where
  finalStatus : Status
  writes : List (Status × Status)
  usedUpscaled : Bool
deriving DecidableEq, Repr

/-- Whether the analyze step throws: `analyzeImageWithGemini` is called
without a catch in the step (src/lib/inngest/functions.ts, line 273), so
it throws exactly when the provider interaction throws. -/
def analysisThrows (r : AnalysisResponse) : Bool :=
  match analyzeImageWithGemini r with
  | .error _ => true
  | .ok _ => false

/-- Whether the upscale step of `processImageFlow` (src/lib/inngest/
functions.ts, lines 281-345, second revision) degrades to the original
image: no TOPAZ_API_KEY, a result without an image payload, or a failed
intermediate Storage upload or signed-URL creation. A thrown
`upscaleWithTopaz` call is NOT in this set: the step has no catch. -/
def upscaleSkips (env : RunEnv) : Bool :=
  !env.topazConfigured
    || (env.topazResult == .noImagePayload)
    || (env.topazResult == .imagePayload && (!env.upsUploadOk || !env.upsSignOk))

/-- Whether the upscale step throws, aborting the attempt. -/
def upscaleThrows (env : RunEnv) : Bool :=
  env.topazConfigured && (env.topazResult == .threw)

/-- Shallow embedding of one `processImageFlow` run together with its
`onFailure` handler (src/lib/inngest/functions.ts, second revision),
starting from DB status `st`:
step update-status-processing writes `processing` and ignores a write
error (the run continues either way); the analyze step throws iff the
provider errored; the upscale step throws iff the configured client threw,
and otherwise either produces an upscaled URL or degrades to the original;
the process-and-persist step throws when frame composition, the final
upload, or the final DB update fails (a signed-URL failure only falls back
to the public URL), and otherwise writes `completed`. A thrown step makes
the run fail after the retry bound, and `onFailure` then writes `failed`.
Steps are memoized by Inngest, so the retried run is modelled by the same
environment and collapses to this one pass. -/
def runPipeline (env : RunEnv) (st : Status) : RunResult :=
  let st1 := if env.markWriteOk then Status.processing else st
  let w1 : List (Status × Status) :=
    if env.markWriteOk then [(st, Status.processing)] else []
  if analysisThrows env.analysisResponse then
    { finalStatus := .failed, writes := w1 ++ [(st1, .failed)], usedUpscaled := false }
  else if upscaleThrows env then
    { finalStatus := .failed, writes := w1 ++ [(st1, .failed)], usedUpscaled := false }
  else
    let usedUps := !(upscaleSkips env)
    if env.frameOk && env.finalUploadOk && env.finalUpdateOk then
      { finalStatus := .completed, writes := w1 ++ [(st1, .completed)],
        usedUpscaled := usedUps }
    else
      { finalStatus := .failed, writes := w1 ++ [(st1, .failed)], usedUpscaled := false }

/-- The status write of `startImageProcessing` (src/unnamed/part_004,
lines 55-77): after sending the Inngest event it unconditionally updates
the image status to `pending`; the update's error result is not checked,
so a failed write leaves the status unchanged. -/
def startImageProcessing (writeOk : Bool) (st : Status) : Status × List (Status × Status) :=
  if writeOk then (Status.pending, [(st, Status.pending)]) else (st, [])

/-- A dispatch of one image (by `startBatchProcessing`, which selects
images with status pending or failed) followed by its pipeline run. -/
def dispatchThenRun (env : RunEnv) (st : Status) : RunResult :=
  let d := startImageProcessing env.dispatchWriteOk st
  let r := runPipeline env d.1
  { r with writes := d.2 ++ r.writes }

/-- The status transition table of the specification state machine:
pending to processing (start), processing to completed (success),
processing to failed (exhausted retries), failed to pending (resubmit). -/
def isAllowedTransition : Status → Status → Bool
  | .pending, .processing => true
  | .processing, .completed => true
  | .processing, .failed => true
  | .failed, .pending => true
  | _, _ => false

/-- A run environment in which every Supabase write succeeds and every
provider call returns cleanly, except that the Topaz upscale client is
configured and throws. -/
def envUpscaleThrows : RunEnv :=
  { dispatchWriteOk := true, markWriteOk := true
    analysisResponse := .unparsable "not json", topazConfigured := true
    topazResult := .threw, upsUploadOk := true, upsSignOk := true
    frameOk := true, finalUploadOk := true, finalSignOk := true
    finalUpdateOk := true }

/-- A run environment in which everything succeeds and Topaz is simply not
configured, the common deployment described by the spec. -/
def envNoTopaz : RunEnv :=
  { dispatchWriteOk := true, markWriteOk := true
    analysisResponse := .unparsable "not json", topazConfigured := false
    topazResult := .noImagePayload, upsUploadOk := true, upsSignOk := true
    frameOk := true, finalUploadOk := true, finalSignOk := true
    finalUpdateOk := true }

/-- A run environment identical to `envNoTopaz` except that the
mark-processing status write fails; the step logs the error and the run
continues with the DB row still pending. -/
def envMarkWriteFails : RunEnv :=
  { dispatchWriteOk := true, markWriteOk := false
    analysisResponse := .unparsable "not json", topazConfigured := false
    topazResult := .noImagePayload, upsUploadOk := true, upsSignOk := true
    frameOk := true, finalUploadOk := true, finalSignOk := true
    finalUpdateOk := true }

/-- A run environment identical to `envNoTopaz` except that the analysis
provider interaction throws (for example the model call errors). -/
def envAnalysisThrows : RunEnv :=
  { dispatchWriteOk := true, markWriteOk := true
    analysisResponse := .providerError, topazConfigured := false
    topazResult := .noImagePayload, upsUploadOk := true, upsSignOk := true
    frameOk := true, finalUploadOk := true, finalSignOk := true
    finalUpdateOk := true }

/-- Helper: membership-style count split for a status list. -/
theorem countP_status_split (l : List Status) :
    l.length
      = l.countP (· == Status.pending) + l.countP (· == Status.processing)
        + l.countP (· == Status.completed) + l.countP (· == Status.failed) := by
  induction l with
  | nil => rfl
  | cons s t ih =>
    cases s <;> simp [List.countP_cons, ih] <;> omega

/-- C3: for every batch (every query outcome), the status query returns
five non-negative integer counts (structurally, they are naturals)
satisfying total = pending + processing + completed + failed. -/
theorem claim_C3_counts_identity (o : StatusQueryOutcome) :
    (getBatchProcessingStatus o).total
      = (getBatchProcessingStatus o).pending
        + (getBatchProcessingStatus o).processing
        + (getBatchProcessingStatus o).completed
        + (getBatchProcessingStatus o).failed := by
  cases o with
  | queryError => rfl
  | thrown => rfl
  | rows l => simpa [getBatchProcessingStatus] using countP_status_split l

/-- C8: for every count combination, the poller's derived `isComplete`
flag is true iff total > 0 and pending = 0 and processing = 0. -/
theorem claim_C8_isComplete_iff (r : BatchCounts) :
    (deriveStatus r).isComplete = true
      ↔ (0 < r.total ∧ r.pending = 0 ∧ r.processing = 0) := by
  simp [deriveStatus, and_assoc]

/-- C10: the batch status query returns the all-zero record on a query
error, on a caught exception, and on an empty batch (so a read failure is
indistinguishable from an empty batch), and the all-zero record never
satisfies the poller's isComplete condition. -/
theorem claim_C10_error_returns_zero :
    getBatchProcessingStatus StatusQueryOutcome.queryError = zeroCounts
      ∧ getBatchProcessingStatus StatusQueryOutcome.thrown = zeroCounts
      ∧ getBatchProcessingStatus (StatusQueryOutcome.rows []) = zeroCounts
      ∧ (deriveStatus zeroCounts).isComplete = false := by
  refine ⟨rfl, rfl, rfl, ?_⟩
  rfl

/-- C9: for every polling session (every sequence of tick times and fetch
results), the poller does not keep polling past the budget: if some tick
fires after the budget is exceeded the loop has stopped by then; the
timeout callback is invoked only when a tick actually exceeded the budget;
the completion callback is invoked only from a tick that reported complete
within the budget; and the default budget is 600000 ms (ten minutes). -/
theorem claim_C9_poll_budget (start maxT : Nat) (trace : List (Nat × Bool)) :
    ((∃ e ∈ trace, start + maxT < e.1) → pollLoop start maxT trace ≠ PollStop.running)
      ∧ (pollLoop start maxT trace = PollStop.timedOut →
          ∃ e ∈ trace, start + maxT < e.1)
      ∧ (pollLoop start maxT trace = PollStop.completedCb →
          ∃ e ∈ trace, e.2 = true ∧ e.1 ≤ start + maxT)
      ∧ defaultMaxPollingTime = 600000 := by
  refine ⟨?_, ?_, ?_, rfl⟩
  · intro h
    obtain ⟨e, hmem, hlt⟩ := h
    induction trace with
    | nil => simp at hmem
    | cons t rest ih =>
      obtain ⟨now, c⟩ := t
      rcases List.mem_cons.mp hmem with heq | hmem2
      · subst heq
        simp only [pollLoop]
        split
        · simp
        · omega
      · simp only [pollLoop]
        split
        · simp
        · split
          · simp
          · exact ih hmem2
  · intro h
    induction trace with
    | nil => simp [pollLoop] at h
    | cons t rest ih =>
      obtain ⟨now, c⟩ := t
      simp only [pollLoop] at h
      split at h
      · exact ⟨(now, c), List.mem_cons_self _ _, by assumption⟩
      · split at h
        · simp at h
        · obtain ⟨e, hmem, he⟩ := ih h
          exact ⟨e, List.mem_cons_of_mem _ hmem, he⟩
  · intro h
    induction trace with
    | nil => simp [pollLoop] at h
    | cons t rest ih =>
      obtain ⟨now, c⟩ := t
      simp only [pollLoop] at h
      split at h
      · simp at h
      · split at h
        · refine ⟨(now, c), List.mem_cons_self _ _, by assumption, by omega⟩
        · obtain ⟨e, hmem, he⟩ := ih h
          exact ⟨e, List.mem_cons_of_mem _ hmem, he⟩

/-- Witness for C9 at a concrete session: start 0, budget 10, a tick at
time 20 exceeds the budget, so the loop is not still running. -/
theorem claim_C9_poll_budget_witness :
    pollLoop 0 10 [(5, false), (20, false)] ≠ PollStop.running :=
  (claim_C9_poll_budget 0 10 [(5, false), (20, false)]).1
    ⟨(20, false), by simp, by norm_num⟩

/-- Counterexample to C2 as stated: at the concrete input where the
provider itself errors (fetch or generateContent throws), the analysis
operation does not return the neutral default; the error propagates as
`Except.error`, and a pipeline run whose analysis provider always errors
(everything else valid) ends with the image marked failed, so the analysis
step can be the cause of an image reaching failed. -/
theorem claim_C2_counterexample :
    analyzeImageWithGemini AnalysisResponse.providerError
      ≠ Except.ok defaultAnalysis
      ∧ analyzeImageWithGemini AnalysisResponse.providerError
          = Except.error "provider error propagates to the caller"
      ∧ (dispatchThenRun envAnalysisThrows Status.pending).finalStatus = Status.failed := by
  exact ⟨by simp [analyzeImageWithGemini], rfl, rfl⟩

/-- C2 amended: the neutral default is returned exactly when JSON parsing
of the response text fails; a parsed response instead yields the clamp of
each of its fields (NaN when a field is absent); and a thrown provider
error propagates to the caller as an error rather than a default. -/
theorem claim_C2_amended (s : String) (j : GeminiJson) :
    analyzeImageWithGemini (AnalysisResponse.unparsable s) = Except.ok defaultAnalysis
      ∧ (analyzeImageWithGemini AnalysisResponse.providerError
          = Except.error "provider error propagates to the caller")
      ∧ analyzeImageWithGemini (AnalysisResponse.json j) = Except.ok
          { brightness := clampField j.brightness
            contrast := clampField j.contrast
            saturation := clampField j.saturation
            vibrance := clampField j.vibrance
            warmth := clampField j.warmth
            highlights := clampField j.highlights
            shadows := clampField j.shadows
            recommendation := jsStringOr j.recommendation "Ajustes optimizados para impresion" } :=
  ⟨rfl, rfl, rfl⟩

/-- C5 (code bug evaluation): at the failing input where the provider
responds with valid JSON that omits every numeric field, the analysis
succeeds but each numeric field of the returned record is NaN — the
JavaScript clamp `Math.min(Math.max(undefined, -100), 100)` evaluates to
NaN — so the fields do not lie in [-100, 100] as the claim requires;
a field that is present as a number is clamped into range. -/
theorem claim_C5_nan_on_omitted_field :
    analyzeImageWithGemini (AnalysisResponse.json emptyGeminiJson)
        = Except.ok
            { brightness := .nan, contrast := .nan, saturation := .nan
              vibrance := .nan, warmth := .nan, highlights := .nan, shadows := .nan
              recommendation := "Ajustes optimizados para impresion" }
      ∧ JSNum.inRange (-100) 100 JSNum.nan = false
      ∧ (∀ q : ℚ, JSNum.inRange (-100) 100 (clampField (some q)) = true) := by
  refine ⟨rfl, rfl, ?_⟩
  intro q
  simp only [clampField, JSNum.inRange, Bool.and_eq_true, decide_eq_true_eq]
  constructor
  · exact le_min (le_max_right _ _) (by norm_num)
  · exact min_le_right _ _

/-- Helper: if every remaining poll response is non-terminal, the loop
exhausts its fuel and times out. -/
theorem pollTopazAux_timeout (resp : Nat → TopazPollResponse) :
    ∀ fuel a, (∀ i, a < i → i ≤ a + fuel → nonTerminal (resp i)) →
      pollTopazAux resp fuel a = TopazPollOutcome.timedOut := by
  intro fuel
  induction fuel with
  | zero => intro a _; rfl
  | succ f ih =>
    intro a h
    have ha : nonTerminal (resp (a + 1)) := h (a + 1) (by omega) (by omega)
    have hrest : ∀ i, a + 1 < i → i ≤ (a + 1) + f → nonTerminal (resp i) := by
      intro i h1 h2
      exact h i (by omega) (by omega)
    rcases ha with he | he <;>
      simp only [pollTopazAux, he] <;> exact ih (a + 1) hrest

/-- Helper: if polls up to attempt k are non-terminal and the k-th poll is
terminal, the loop's result is the handling of the k-th response. -/
theorem pollTopazAux_reach (resp : Nat → TopazPollResponse) :
    ∀ fuel a k, a < k → k ≤ a + fuel →
      (∀ i, a < i → i < k → nonTerminal (resp i)) →
      ¬ nonTerminal (resp k) →
      pollTopazAux resp fuel a = pollTopazAux resp (fuel - (k - a - 1)) (k - 1) := by
  intro fuel
  induction fuel with
  | zero => intro a k h1 h2; omega
  | succ f ih =>
    intro a k h1 h2 hpre hterm
    by_cases hk : k = a + 1
    · subst hk
      exact congr (congrArg (pollTopazAux resp) (by omega)) (by omega)
    · have ha : nonTerminal (resp (a + 1)) := hpre (a + 1) (by omega) (by omega)
      have step : pollTopazAux resp (f + 1) a = pollTopazAux resp f (a + 1) := by
        rcases ha with he | he <;> simp only [pollTopazAux, he]
      rw [step, ih (a + 1) k (by omega) (by omega)
        (fun i hi1 hi2 => hpre i (by omega) hi2) hterm]
      congr 1
      omega

/-- Helper: with non-terminal responses before attempt k and a terminal
response at attempt k, the loop result is the k-th step's handling. -/
theorem pollTopazJob_at (resp : Nat → TopazPollResponse) (k : Nat)
    (h1 : 1 ≤ k) (h2 : k ≤ 120)
    (hpre : ∀ i, 1 ≤ i → i < k → nonTerminal (resp i))
    (hterm : ¬ nonTerminal (resp k)) :
    pollTopazJob resp = pollTopazAux resp ((120 - k) + 1) (k - 1) := by
  have h := pollTopazAux_reach resp 120 0 k (by omega) (by omega)
    (fun i hi1 hi2 => hpre i (by omega) hi2) hterm
  rw [pollTopazJob, MAX_POLLING_ATTEMPTS, h]
  exact congr (congrArg (pollTopazAux resp) (by omega)) rfl

/-- Counterexample to C7 as stated: at the concrete input where the very
first poll reports the terminal provider status "failed" and every later
poll reports a pending status, the loop does not surface an immediate
error; the thrown error is swallowed by the catch (attempts < 60) and
polling continues until the attempt budget is exhausted, ending in the
timeout error. Where every poll reports "failed", the error surfaces only
at attempt 60, not attempt 1. -/
theorem claim_C7_counterexample :
    pollTopazJob (fun i => if i = 1 then .failedStatus else .otherStatus)
        = TopazPollOutcome.timedOut
      ∧ pollTopazJob (fun _ => .failedStatus) = TopazPollOutcome.jobFailed 60 := by
  constructor
  · rfl
  · rfl

/-- C7 amended: a terminal "completed" status with a result URL yields the
result at that attempt; a terminal "failed" status surfaces as an error
only once at least half the maximum attempts (60 of 120) have been made —
an earlier "failed" status is swallowed by the catch block and polling
continues, so a lone early failure among otherwise pending polls ends in
the timeout error; and if no poll is terminal the loop raises the timeout
error after the fixed maximum attempt count. -/
theorem claim_C7_amended :
    (∀ resp : Nat → TopazPollResponse,
        (∀ i, 1 ≤ i → i ≤ 120 → nonTerminal (resp i)) →
        pollTopazJob resp = TopazPollOutcome.timedOut)
      ∧ (∀ (resp : Nat → TopazPollResponse) (k : Nat) (url : String),
          1 ≤ k → k ≤ 120 →
          (∀ i, 1 ≤ i → i < k → nonTerminal (resp i)) →
          resp k = TopazPollResponse.completedWith (some url) →
          pollTopazJob resp = TopazPollOutcome.success url k)
      ∧ (∀ (resp : Nat → TopazPollResponse) (k : Nat),
          60 ≤ k → k ≤ 120 →
          (∀ i, 1 ≤ i → i < k → nonTerminal (resp i)) →
          resp k = TopazPollResponse.failedStatus →
          pollTopazJob resp = TopazPollOutcome.jobFailed k)
      ∧ (∀ (resp : Nat → TopazPollResponse) (k : Nat),
          1 ≤ k → k < 60 →
          (∀ i, 1 ≤ i → i ≤ 120 → i ≠ k → nonTerminal (resp i)) →
          resp k = TopazPollResponse.failedStatus →
          pollTopazJob resp = TopazPollOutcome.timedOut) := by
  have hstep : ∀ (resp : Nat → TopazPollResponse) (k : Nat), 1 ≤ k →
      pollTopazAux resp ((120 - k) + 1) (k - 1)
        = (match resp k with
            | .httpError => pollTopazAux resp (120 - k) k
            | .completedWith (some url) => .success url k
            | .completedWith none =>
              if MAX_POLLING_ATTEMPTS / 2 ≤ k then .noResultUrl k
              else pollTopazAux resp (120 - k) k
            | .failedStatus =>
              if MAX_POLLING_ATTEMPTS / 2 ≤ k then .jobFailed k
              else pollTopazAux resp (120 - k) k
            | .otherStatus => pollTopazAux resp (120 - k) k) := by
    intro resp k hk
    have e : k - 1 + 1 = k := by omega
    simp only [pollTopazAux, e]
  refine ⟨?_, ?_, ?_, ?_⟩
  · intro resp h
    exact pollTopazAux_timeout resp 120 0 (fun i hi1 hi2 => h i (by omega) (by omega))
  · intro resp k url h1 h2 hpre hk
    have hterm : ¬ nonTerminal (resp k) := by
      simp [nonTerminal, hk]
    rw [pollTopazJob_at resp k h1 h2 hpre hterm, hstep resp k h1, hk]
  · intro resp k h60 h2 hpre hk
    have hterm : ¬ nonTerminal (resp k) := by
      simp [nonTerminal, hk]
    rw [pollTopazJob_at resp k (by omega) h2 hpre hterm, hstep resp k (by omega), hk]
    simp only [MAX_POLLING_ATTEMPTS]
    rw [if_pos (by omega)]
  · intro resp k h1 h60 hrest hk
    have hterm : ¬ nonTerminal (resp k) := by
      simp [nonTerminal, hk]
    have hpre : ∀ i, 1 ≤ i → i < k → nonTerminal (resp i) := by
      intro i hi1 hi2
      exact hrest i hi1 (by omega) (by omega)
    rw [pollTopazJob_at resp k h1 (by omega) hpre hterm, hstep resp k h1, hk]
    simp only [MAX_POLLING_ATTEMPTS]
    rw [if_neg (by omega)]
    exact pollTopazAux_timeout resp (120 - k) k
      (fun i hi1 hi2 => hrest i (by omega) (by omega) (by omega))

/-- Witness for C7 amended at concrete inputs: a job whose second poll
reports completed with a URL succeeds at attempt 2; a job that reports
"failed" from attempt 60 onward (pending before) fails at attempt 60. -/
theorem claim_C7_amended_witness :
    pollTopazJob (fun i => if i = 2 then .completedWith (some "u") else .otherStatus)
        = TopazPollOutcome.success "u" 2
      ∧ pollTopazJob (fun i => if 60 ≤ i then .failedStatus else .otherStatus)
          = TopazPollOutcome.jobFailed 60 := by
  constructor
  · exact claim_C7_amended.2.1 _ 2 "u" (by omega) (by omega)
      (by
        intro i hi1 hi2
        have : i = 1 := by omega
        subst this
        simp [nonTerminal])
      (by simp)
  · exact claim_C7_amended.2.2.1 _ 60 (by omega) (by omega)
      (by
        intro i hi1 hi2
        right
        simp only [if_neg (by omega : ¬ 60 ≤ i)])
      (by simp)

/-- C6: for every adjustment record whose fields lie in [-100, 100], the
mapped Sharp parameters are within each target operation's valid domain:
modulate brightness in [0.5, 2], modulate saturation in [0, 2], the linear
contrast multiplier (when applied) in [0.5, 2], and the gamma value (when
applied) in [1, 3]. -/
theorem claim_C6_params_in_domain (a : AdjustmentsQ)
    (hb1 : -100 ≤ a.brightness) (hb2 : a.brightness ≤ 100)
    (hc1 : -100 ≤ a.contrast) (hc2 : a.contrast ≤ 100)
    (hs1 : -100 ≤ a.saturation) (hs2 : a.saturation ≤ 100)
    (hv1 : -100 ≤ a.vibrance) (hv2 : a.vibrance ≤ 100)
    (hw1 : -100 ≤ a.warmth) (hw2 : a.warmth ≤ 100)
    (hh1 : -100 ≤ a.highlights) (hh2 : a.highlights ≤ 100)
    (hd1 : -100 ≤ a.shadows) (hd2 : a.shadows ≤ 100) :
    (1 / 2 ≤ (applyColorAdjustments a).modBrightness
        ∧ (applyColorAdjustments a).modBrightness ≤ 2)
      ∧ (0 ≤ (applyColorAdjustments a).modSaturation
          ∧ (applyColorAdjustments a).modSaturation ≤ 2)
      ∧ (∀ m, (applyColorAdjustments a).linearMultiplier = some m → 1 / 2 ≤ m ∧ m ≤ 2)
      ∧ (∀ g, (applyColorAdjustments a).gammaValue = some g → 1 ≤ g ∧ g ≤ 3) := by
  simp only [applyColorAdjustments]
  refine ⟨⟨le_max_left _ _, ?_⟩, ⟨le_max_left _ _, ?_⟩, ?_, ?_⟩
  · exact max_le (by norm_num) (min_le_left _ _)
  · exact max_le (by norm_num) (min_le_left _ _)
  · intro m hm
    split at hm
    · have : m = max (1 / 2) (min 2 (1 + a.contrast / 100)) := by
        exact (Option.some_inj.mp hm).symm
      subst this
      exact ⟨le_max_left _ _, max_le (by norm_num) (min_le_left _ _)⟩
    · simp at hm
  · intro g hg
    split at hg
    · split at hg
      · have : g = max 1 (min 3 (1 + -(a.shadows / 200) + 1 / 2)) := by
          exact (Option.some_inj.mp hg).symm
        subst this
        exact ⟨le_max_left _ _, max_le (by norm_num) (min_le_left _ _)⟩
      · simp at hg
    · simp at hg

/-- Witness for C6 at a concrete in-range adjustment record. -/
theorem claim_C6_params_in_domain_witness :
    (1 / 2 ≤ (applyColorAdjustments
          ⟨50, 30, -40, 10, 100, -100, 25⟩).modBrightness
        ∧ (applyColorAdjustments ⟨50, 30, -40, 10, 100, -100, 25⟩).modBrightness ≤ 2)
      ∧ (0 ≤ (applyColorAdjustments ⟨50, 30, -40, 10, 100, -100, 25⟩).modSaturation
          ∧ (applyColorAdjustments ⟨50, 30, -40, 10, 100, -100, 25⟩).modSaturation ≤ 2)
      ∧ (∀ m, (applyColorAdjustments ⟨50, 30, -40, 10, 100, -100, 25⟩).linearMultiplier
            = some m → 1 / 2 ≤ m ∧ m ≤ 2)
      ∧ (∀ g, (applyColorAdjustments ⟨50, 30, -40, 10, 100, -100, 25⟩).gammaValue
            = some g → 1 ≤ g ∧ g ≤ 3) :=
  claim_C6_params_in_domain ⟨50, 30, -40, 10, 100, -100, 25⟩
    (by norm_num) (by norm_num) (by norm_num) (by norm_num) (by norm_num) (by norm_num)
    (by norm_num) (by norm_num) (by norm_num) (by norm_num) (by norm_num) (by norm_num)
    (by norm_num) (by norm_num)

/-- Counterexample to C1 as stated: at the concrete run where the
configured upscale client always errors (throws) and everything else is
valid, the run does not reach completed with the original image; the
upscale step's exception aborts the run and the image is marked failed. -/
theorem claim_C1_counterexample :
    (dispatchThenRun envUpscaleThrows Status.pending).finalStatus ≠ Status.completed
      ∧ (dispatchThenRun envUpscaleThrows Status.pending).finalStatus = Status.failed := by
  constructor
  · decide
  · rfl

/-- C1 amended: the upscale step degrades to the original image — the run
still completes and the frame is composed from the original — when the
provider is unconfigured, when the upscale result carries no image
payload, or when the intermediate Storage upload or signed-URL creation
fails; but an exception thrown by the upscale client itself is not caught
by the step, so it aborts the run and the image is marked failed. -/
theorem claim_C1_amended (env : RunEnv) (st : Status)
    (ha : analysisThrows env.analysisResponse = false)
    (hf : env.frameOk = true) (hu : env.finalUploadOk = true)
    (hd : env.finalUpdateOk = true) :
    (upscaleSkips env = true →
        (dispatchThenRun env st).finalStatus = Status.completed
          ∧ (dispatchThenRun env st).usedUpscaled = false)
      ∧ (upscaleThrows env = true →
          (dispatchThenRun env st).finalStatus = Status.failed) := by
  constructor
  · intro hs
    have ht : upscaleThrows env = false := by
      unfold upscaleSkips at hs
      unfold upscaleThrows
      cases hc : env.topazConfigured <;> cases hr : env.topazResult <;> simp_all
    simp [dispatchThenRun, runPipeline, startImageProcessing, ha, ht, hs, hf, hu, hd]
  · intro ht
    simp [dispatchThenRun, runPipeline, startImageProcessing, ha, ht]

/-- Witness for C1 amended: with Topaz unconfigured and all other steps
succeeding, the run completes using the original image. -/
theorem claim_C1_amended_witness :
    (dispatchThenRun envNoTopaz Status.pending).finalStatus = Status.completed
      ∧ (dispatchThenRun envNoTopaz Status.pending).usedUpscaled = false :=
  (claim_C1_amended envNoTopaz Status.pending rfl rfl rfl rfl).1 (by decide)

/-- Helper: with a successful mark-processing write, a run's status writes
are the mark write followed by the terminal write, and the terminal status
is completed or failed. -/
theorem runPipeline_writes (env : RunEnv) (st : Status)
    (hm : env.markWriteOk = true) :
    (runPipeline env st).writes
        = [(st, Status.processing), (Status.processing, (runPipeline env st).finalStatus)]
      ∧ ((runPipeline env st).finalStatus = Status.completed
          ∨ (runPipeline env st).finalStatus = Status.failed) := by
  simp only [runPipeline, hm, if_true]
  split
  · simp
  · split
    · simp
    · split
      · simp
      · simp

/-- Counterexample to C4 as stated: at the concrete run where the
mark-processing write fails (the step ignores the error and continues) and
everything else succeeds, the persist step writes completed over a row
still in pending, a pending-to-completed transition outside the claimed
transition set. -/
theorem claim_C4_counterexample :
    (Status.pending, Status.completed)
        ∈ (dispatchThenRun envMarkWriteFails Status.pending).writes
      ∧ Status.pending ≠ Status.completed
      ∧ isAllowedTransition Status.pending Status.completed = false := by
  refine ⟨?_, by decide, by decide⟩
  decide

/-- C4 amended: provided the dispatch write and the mark-processing write
both succeed, every status-changing write performed by dispatch and the
run is one of the four permitted transitions (a dispatch of an already
pending image rewrites pending over pending, which changes nothing); if
the mark-processing write fails, the run continues and can write completed
or failed over a pending row, a transition outside the permitted set. -/
theorem claim_C4_amended (env : RunEnv) (st : Status)
    (hst : st = Status.pending ∨ st = Status.failed)
    (hd : env.dispatchWriteOk = true) (hm : env.markWriteOk = true) :
    ∀ p ∈ (dispatchThenRun env st).writes,
      p.1 ≠ p.2 → isAllowedTransition p.1 p.2 = true := by
  intro p hp hne
  have hw := runPipeline_writes env Status.pending hm
  have hmem : (dispatchThenRun env st).writes
      = (st, Status.pending) :: (runPipeline env Status.pending).writes := by
    simp [dispatchThenRun, startImageProcessing, hd]
  rw [hmem, hw.1] at hp
  rcases List.mem_cons.mp hp with h | h
  · rcases hst with h2 | h2 <;> subst h2 <;> subst h <;> simp_all [isAllowedTransition]
  · rcases List.mem_cons.mp h with h3 | h3
    · subst h3; rfl
    · rcases List.mem_cons.mp h3 with h4 | h4
      · rcases hw.2 with h5 | h5 <;> rw [h5] at h4 <;> subst h4 <;> rfl
      · simp at h4

/-- Witness for C4 amended: resubmitting a failed image with all writes
succeeding, the failed-to-pending dispatch write is a permitted
transition. -/
theorem claim_C4_amended_witness :
    (Status.failed, Status.pending) ∈ (dispatchThenRun envNoTopaz Status.failed).writes
      ∧ isAllowedTransition Status.failed Status.pending = true :=
  ⟨by decide,
    claim_C4_amended envNoTopaz Status.failed (Or.inr rfl) rfl rfl
      (Status.failed, Status.pending) (by decide) (by decide)⟩
